import Mathlib

/-!
Shallow embedding of `reddwarf/common/wsgi.py` (the HTTP boundary layer of the
reddwarf REST API server): content negotiation, version routing, XML/JSON
serialization, exception-to-fault mapping, context extraction and the
fault-wrapping middleware.

Python dictionaries are modelled as association lists `List (String × _)`
(first match wins on lookup, as lookups here are only performed on maps with
distinct keys; insertion overwrites an existing key, as in a Python dict).
External collaborators (webob, the openstack_wsgi base classes) enter as
explicit parameters or as small enumerations of the webob exception classes
with their standard HTTP status codes.
-/

namespace ReddwarfWsgi

/-- Dictionary lookup on an association list: Python's `d.get(k)` /
`k in d` for the string-keyed dicts of the source. -/
def dictLookup {β : Type} (d : List (String × β)) (k : String) : Option β :=
  (d.find? (fun p => p.1 = k)).map Prod.snd

/-- Python `d.get(k, default)`. -/
def dictGetD {β : Type} (d : List (String × β)) (k : String) (dflt : β) : β :=
  (dictLookup d k).getD dflt

/-- The webob exception classes referenced by `wsgi.py`.  webob is an external
library; each class carries its standard HTTP status code (`status_int`). -/
inductive WebobExc where
  | HTTPUnprocessableEntity
  | HTTPUnauthorized
  | HTTPBadRequest
  | HTTPNotFound
  | HTTPConflict
  | HTTPRequestEntityTooLarge
  | HTTPServerError
  | HTTPInternalServerError
  | HTTPNotAcceptable
  | HTTPForbidden
  | HTTPMethodNotAllowed
  | HTTPUnsupportedMediaType
  | HTTPNotImplemented
  | HTTPServiceUnavailable
deriving DecidableEq, Repr

/-- Standard webob `status_int` of each exception class. -/
def WebobExc.status_int : WebobExc → Nat
  | .HTTPUnprocessableEntity => 422
  | .HTTPUnauthorized => 401
  | .HTTPBadRequest => 400
  | .HTTPNotFound => 404
  | .HTTPConflict => 409
  | .HTTPRequestEntityTooLarge => 413
  | .HTTPServerError => 500
  | .HTTPInternalServerError => 500
  | .HTTPNotAcceptable => 406
  | .HTTPForbidden => 403
  | .HTTPMethodNotAllowed => 405
  | .HTTPUnsupportedMediaType => 415
  | .HTTPNotImplemented => 501
  | .HTTPServiceUnavailable => 503

/-- Python class name (`exc.__class__.__name__`) of each webob exception
class, used by `Fault._get_error_name`. -/
def WebobExc.clsName : WebobExc → String
  | .HTTPUnprocessableEntity => "HTTPUnprocessableEntity"
  | .HTTPUnauthorized => "HTTPUnauthorized"
  | .HTTPBadRequest => "HTTPBadRequest"
  | .HTTPNotFound => "HTTPNotFound"
  | .HTTPConflict => "HTTPConflict"
  | .HTTPRequestEntityTooLarge => "HTTPRequestEntityTooLarge"
  | .HTTPServerError => "HTTPServerError"
  | .HTTPInternalServerError => "HTTPInternalServerError"
  | .HTTPNotAcceptable => "HTTPNotAcceptable"
  | .HTTPForbidden => "HTTPForbidden"
  | .HTTPMethodNotAllowed => "HTTPMethodNotAllowed"
  | .HTTPUnsupportedMediaType => "HTTPUnsupportedMediaType"
  | .HTTPNotImplemented => "HTTPNotImplemented"
  | .HTTPServiceUnavailable => "HTTPServiceUnavailable"

/-- The `reddwarf.common.exception` error types named in
`Controller.exception_map`.  `otherError s` stands for any further
`ReddwarfError` subclass (identified by its name) that is not registered in
the table; `_get_http_error` matches on the exact type, so any such type
behaves uniformly. -/
inductive RdExc where
  | UnprocessableEntity
  | Forbidden
  | InvalidModelError
  | BadRequest
  | CannotResizeToSameSize
  | BadValue
  | DatabaseAlreadyExists
  | UserAlreadyExists
  | NotFound
  | ComputeInstanceNotFound
  | ModelNotFoundError
  | UserNotFound
  | DatabaseNotFound
  | QuotaResourceUnknown
  | OverLimit
  | QuotaExceeded
  | VolumeQuotaExceeded
  | VolumeCreationFailure
  | UpdateGuestError
  | otherError (name : String)
deriving DecidableEq, Repr

/-- `Controller.exception_map`: the declarative `{status: [error_kind, ...]}`
table, in source order. -/
def Controller.exception_map : List (WebobExc × List RdExc) :=
  [ (.HTTPUnprocessableEntity, [.UnprocessableEntity]),
    (.HTTPUnauthorized, [.Forbidden]),
    (.HTTPBadRequest,
      [.InvalidModelError, .BadRequest, .CannotResizeToSameSize, .BadValue,
       .DatabaseAlreadyExists, .UserAlreadyExists]),
    (.HTTPNotFound,
      [.NotFound, .ComputeInstanceNotFound, .ModelNotFoundError,
       .UserNotFound, .DatabaseNotFound, .QuotaResourceUnknown]),
    (.HTTPConflict, []),
    (.HTTPRequestEntityTooLarge, [.OverLimit, .QuotaExceeded, .VolumeQuotaExceeded]),
    (.HTTPServerError, [.VolumeCreationFailure, .UpdateGuestError]) ]

/-- Python dict insertion `d[k] = v`: overwrite the entry if the key is
present, otherwise append. -/
def dictSet {β : Type} (d : List (String × β)) (k : String) (v : β) :
    List (String × β) :=
  if d.any (fun p => p.1 = k) then
    d.map (fun p => if p.1 = k then (k, v) else p)
  else d ++ [(k, v)]

/-- Insertion for the `RdExc`-keyed inverted exception dict. -/
def dictSetExc (d : List (RdExc × WebobExc)) (k : RdExc) (v : WebobExc) :
    List (RdExc × WebobExc) :=
  if d.any (fun p => p.1 = k) then
    d.map (fun p => if p.1 = k then (k, v) else p)
  else d ++ [(k, v)]

/-- `Resource._invert_dict_list`: flattens values of keys and inverts keys
and values, building a Python dict (later insertions overwrite). -/
def Resource.invert_dict_list (exception_dict : List (WebobExc × List RdExc)) :
    List (RdExc × WebobExc) :=
  exception_dict.foldl
    (fun acc kv => kv.2.foldl (fun acc2 v => dictSetExc acc2 v kv.1) acc) []

/-- `self.model_exception_map` for a `Resource` built by
`Controller.create_resource` (which passes `Controller.exception_map`). -/
def Resource.model_exception_map : List (RdExc × WebobExc) :=
  Resource.invert_dict_list Controller.exception_map

/-- `Resource._get_http_error`: exact-type lookup in the inverted map,
defaulting to `webob.exc.HTTPBadRequest`. -/
def Resource.get_http_error (error : RdExc) : WebobExc :=
  ((Resource.model_exception_map.find? (fun p => p.1 = error)).map Prod.snd).getD
    .HTTPBadRequest

/-- Outcome of the base-class dispatch inside `Resource.execute_action`
(the `super().execute_action(...)` call into the controller's action): the
action either returns a plain dict, raises a `ReddwarfError`, raises a
`webob.exc.HTTPError`, or raises some other exception. -/
inductive ActionOutcome (α : Type) where
  | ok (d : α)
  | raiseReddwarf (e : RdExc)
  | raiseHttp (w : WebobExc)
  | raiseOther
deriving DecidableEq, Repr

/-- Value returned by `Resource.execute_action`: a `Result` wrapping the
dict (default status 200), or a `Fault` wrapping a webob exception class. -/
inductive ActionResult (α : Type) where
  | result (d : α) (status : Nat)
  | fault (w : WebobExc)
deriving DecidableEq, Repr

/-- `Resource.execute_action`: a missing controller action yields
`Fault(HTTPNotFound())`; a dict result is wrapped in `Result` (status 200);
a `ReddwarfError` becomes a `Fault` of the class chosen by
`_get_http_error`; an `HTTPError` is wrapped as-is; any other exception
becomes a `Fault(HTTPInternalServerError(...))`. -/
def Resource.execute_action {α : Type} (hasAction : Bool)
    (outcome : ActionOutcome α) : ActionResult α :=
  if hasAction then
    match outcome with
    | .ok d => .result d 200
    | .raiseReddwarf e => .fault (Resource.get_http_error e)
    | .raiseHttp w => .fault w
    | .raiseOther => .fault .HTTPInternalServerError
  else .fault .HTTPNotFound

/-- The `named_exceptions` table of `Fault._get_error_name`. -/
def named_exceptions : List (String × String) :=
  [ ("HTTPBadRequest", "badRequest"),
    ("HTTPUnauthorized", "unauthorized"),
    ("HTTPForbidden", "forbidden"),
    ("HTTPNotFound", "itemNotFound"),
    ("HTTPMethodNotAllowed", "badMethod"),
    ("HTTPRequestEntityTooLarge", "overLimit"),
    ("HTTPUnsupportedMediaType", "badMediaType"),
    ("HTTPInternalServerError", "instanceFault"),
    ("HTTPNotImplemented", "notImplemented"),
    ("HTTPServiceUnavailable", "serviceUnavailable") ]

/-- Python `name[:1].lower() + name[1:]`. -/
def lowerFirst (s : String) : String :=
  match s.toList with
  | [] => ""
  | c :: cs => (c.toLower :: cs).asString

/-- `Fault._get_error_name`: look the class name up in `named_exceptions`;
otherwise `name.split("HTTP").pop()` (the last piece) with the first letter
lower-cased. -/
def Fault.get_error_name (exc : WebobExc) : String :=
  let name := exc.clsName
  match dictLookup named_exceptions name with
  | some n => n
  | none => lowerFirst ((name.splitOn "HTTP").getLastD "")

/-- Helper for `pySplit`: accumulate the current piece (reversed) while
walking the characters. -/
def splitCharAux (sep : Char) : List Char → List Char → List String
  | [], acc => [acc.reverse.asString]
  | c :: cs, acc =>
    if c = sep then acc.reverse.asString :: splitCharAux sep cs []
    else splitCharAux sep cs (c :: acc)

/-- Python `s.split(sep)` for a one-character separator: `"".split(',')`
is `[""]`, and empty pieces between separators are kept. -/
def pySplit (sep : Char) (s : String) : List String :=
  splitCharAux sep s.toList []

/-- Python `s.lower()` (the role strings here are ASCII). -/
def pyLower (s : String) : String :=
  (s.toList.map Char.toLower).asString

/-- Python `path.rsplit('.', 1)`: split at the last dot, `none` when the
path contains no dot; otherwise the text before and after the last dot. -/
def rsplit_dot (s : String) : Option (String × String) :=
  match (s.toList.reverse).span (fun c => c != '.') with
  | (_, []) => none
  | (extRev, _ :: restRev) => some (restRev.reverse.asString, extRev.reverse.asString)

/-- The candidate media-type table of `Request.best_match_content_type`. -/
def ctypes : List (String × String) :=
  [ ("application/vnd.openstack.reddwarf+json", "application/json"),
    ("application/vnd.openstack.reddwarf+xml", "application/xml"),
    ("application/json", "application/json"),
    ("application/xml", "application/xml") ]

/-- `Request.best_match_content_type`.  `path.rsplit('.', 1)` has a second
piece exactly when the path contains a dot, and that piece is the text after
the last dot (`rsplit_dot`).  The external webob call
`self.accept.best_match(ctypes.keys())` is passed in as `bestMatch`
(webob returns one of the offered keys, or `None` ↦ `none`); the final line
is Python's `ctypes.get(bm, 'application/json')`. -/
def Request.best_match_content_type (path : String) (bestMatch : Option String) :
    String :=
  match rsplit_dot path with
  | some (_, fmt) =>
    if fmt = "json" ∨ fmt = "xml" then "application/" ++ fmt
    else
      match bestMatch with
      | some bm => dictGetD ctypes bm "application/json"
      | none => "application/json"
  | none =>
    match bestMatch with
    | some bm => dictGetD ctypes bm "application/json"
    | none => "application/json"

/-- Greedy match of the regex piece `\d+\.?\d*` at the head of `cs`
(the `version_no` capture group of both version regexes); `none` when no
digit is present. -/
def parse_version_no (cs : List Char) : Option String :=
  let s1 := cs.span Char.isDigit
  if s1.1.isEmpty then none
  else
    match s1.2 with
    | '.' :: r2 => some (s1.1 ++ '.' :: (r2.span Char.isDigit).1).asString
    | _ => some s1.1.asString

/-- Match of `/v(?P<version_no>\d+\.?\d*)` anchored at the head of `cs`. -/
def match_version_at : List Char → Option String
  | '/' :: 'v' :: rest => parse_version_no rest
  | _ => none

/-- `re.search` of the URL version pattern: try each start position from the
left and return the first (leftmost) match, as Python's regex engine does. -/
def search_version : List Char → Option String
  | [] => none
  | c :: cs =>
    match match_version_at (c :: cs) with
    | some v => some v
    | none => search_version cs

/-- `Request.url_version`: `re.search("/v(?P<version_no>\d+\.?\d*)", path)`,
returning the `version_no` group of the leftmost match. -/
def Request.url_version (path : String) : Option String :=
  search_version path.toList

/-- Consume the literal characters `lit` from the head of `cs`; `none` when
`cs` does not start with `lit`. -/
def dropLit : List Char → List Char → Option (List Char)
  | [], cs => some cs
  | _ :: _, [] => none
  | l :: ls, c :: cs => if c = l then dropLit ls cs else none

/-- Match of `;version=` followed by the `\d+\.?\d*` capture, anchored at the
head of `cs`. -/
def parse_semi_version (cs : List Char) : Option String :=
  (dropLit ";version=".toList cs).bind parse_version_no

/-- After a literal `+`, the lazy group piece `.+?` of the accept-version
regex: consume at least one character (never a newline, which `.` does not
match), preferring the shortest expansion whose remainder matches
`;version=\d+\.?\d*`. -/
def find_semi_version : List Char → Option String
  | [] => none
  | c :: rest =>
    if c = '\n' then none
    else
      match parse_semi_version rest with
      | some v => some v
      | none => find_semi_version rest

/-- The tail `(\+.+?)?;version=...` of the accept-version regex: the greedy
optional group is taken when a `+` is present (and then the lazy `.+?` must
reach a matching `;version=`); otherwise the group is empty and `;version=`
must follow directly.  When `cs` starts with `+` but no `;version=` is
reachable, the empty-group alternative also fails (it would need `;` where
the `+` stands). -/
def match_accept_tail : List Char → Option String
  | '+' :: rest => find_semi_version rest
  | cs => parse_semi_version cs

/-- Match of the accept-version pattern anchored at the head of `cs`:
`application/vnd.openstack.reddwarf(\+.+?)?;version=(\d+\.?\d*)` where the
two unescaped dots of the vendor string are regex wildcards (any character
except newline). -/
def match_accept_at (cs : List Char) : Option String :=
  match dropLit "application/vnd".toList cs with
  | none => none
  | some r1 =>
    match r1 with
    | [] => none
    | c1 :: r2 =>
      if c1 = '\n' then none
      else
        match dropLit "openstack".toList r2 with
        | none => none
        | some r3 =>
          match r3 with
          | [] => none
          | c2 :: r4 =>
            if c2 = '\n' then none
            else
              match dropLit "reddwarf".toList r4 with
              | none => none
              | some r5 => match_accept_tail r5

/-- `re.search` of the accept-version pattern (the `.*?` prefix of the source
regex makes the search semantics explicit): leftmost match wins. -/
def search_accept : List Char → Option String
  | [] => none
  | c :: cs =>
    match match_accept_at (c :: cs) with
    | some v => some v
    | none => search_accept cs

/-- `Request.accept_version`: search the `ACCEPT` header for the versioned
vendor media type and return its `version_no` group. -/
def Request.accept_version (accept_header : String) : Option String :=
  search_accept accept_header.toList

/-- The parts of a WSGI request consulted by `VersionedURLMap.__call__`. -/
structure WsgiRequest where
  path : String
  accept : String
deriving DecidableEq, Repr

/-- Where `VersionedURLMap.__call__` sends the request: a registered
sub-application, the `Fault(HTTPNotAcceptable("version not supported"))`
default, or the full URL map unmodified. -/
inductive Dispatch (α : Type) where
  | app (a : α)
  | versionFault
  | fullMap
deriving DecidableEq, Repr

/-- `VersionedURLMap.__call__`: when the URL carries no version and the
accept header does, look up `"/v" + accept_version` among the registered
sub-applications (the urlmap, an association list of path prefixes), with
the 406 fault as the `.get` default; otherwise dispatch to the full map. -/
def VersionedURLMap.call {α : Type} (urlmap : List (String × α))
    (req : WsgiRequest) : Dispatch α :=
  if Request.url_version req.path = none ∧
      (Request.accept_version req.accept).isSome then
    let version := "/v" ++ (Request.accept_version req.accept).getD ""
    match dictLookup urlmap version with
    | some a => .app a
    | none => .versionFault
  else .fullMap

/-- The message of the multiple-root-keys `RuntimeError` in
`ReddwarfXMLDictSerializer.default` (the `%s`-interpolated dict omitted). -/
def multipleRootMsg : String := "Xml issue: multiple root keys found in dict!"

/-- The message of the missing-root-key `RuntimeError` in
`ReddwarfXMLDictSerializer.default` (the `%s`-interpolated dict omitted). -/
def missingRootMsg : String := "Missing root key in dict"

/-- The key-scanning loop of `ReddwarfXMLDictSerializer.default`: walk the
dict entries carrying the `root_key` and `has_links` accumulators; a second
non-`links` key raises the multiple-root-keys `RuntimeError`. -/
def xml_scan_keys {α : Type} :
    List (String × α) → Option String → Bool → Except String (Option String × Bool)
  | [], root?, has_links => .ok (root?, has_links)
  | (k, _) :: rest, root?, has_links =>
    if k = "links" then xml_scan_keys rest root? true
    else
      match root? with
      | none => xml_scan_keys rest (some k) has_links
      | some _ => .error multipleRootMsg

/-- `ReddwarfXMLDictSerializer.default`: scan the keys; a missing root key is
a `RuntimeError`; otherwise the XML document is built from the root key's
value, with a `links` child node appended under the root when a `links` key
was seen.  The result abstracts the built document as the root element name,
its payload (`data[root_key]`), and the optional links payload
(`data['links']`). -/
def ReddwarfXMLDictSerializer.default {α : Type} (data : List (String × α)) :
    Except String (String × Option α × Option α) :=
  match xml_scan_keys data none false with
  | .error m => .error m
  | .ok (none, _) => .error missingRootMsg
  | .ok (some root_key, has_links) =>
    .ok (root_key, dictLookup data root_key,
         if has_links then dictLookup data "links" else none)

/-- Python truthiness of `self.wrapped_exc.detail` (an optional string):
`None` and the empty string are falsy. -/
def pyTruthy : Option String → Bool
  | none => false
  | some s => !(s == "")

/-- The wrapped `webob.exc` instance held by a `Fault`: its class, the
`detail` passed at construction (or `None`), and the class's generic
`explanation` text. -/
structure WrappedExc where
  cls : WebobExc
  detail : Option String
  explanation : String
deriving DecidableEq, Repr

/-- Scalar values of the fault body dict. -/
inductive FaultVal where
  | num (n : Nat)
  | str (s : String)
deriving DecidableEq, Repr

/-- The `fault_data` dict built by `Fault.__call__`: one top-level key (the
fault name), whose value holds `code` (the wrapped exception's
`status_int`) and `message` (`detail` when truthy, else `explanation`). -/
def Fault.fault_data (exc : WrappedExc) : List (String × List (String × FaultVal)) :=
  let fault_name := Fault.get_error_name exc.cls
  let message := if pyTruthy exc.detail then exc.detail.getD "" else exc.explanation
  [(fault_name, [("code", .num exc.cls.status_int), ("message", .str message)])]

/-- Outcome of `Resource.serialize_response`: the serialized response from
the base class, a logged-and-reraised exception, or an exception silently
absorbed (the override's `except` block falls through, returning `None`). -/
inductive SerializeOutcome (ρ ε : Type) where
  | ok (r : ρ)
  | raised (e : ε)
  | swallowed
deriving DecidableEq, Repr

/-- `Resource.serialize_response`: the base-class call
`super().serialize_response(...)` is passed in as `superResult` (its normal
return or the exception it raises); on an exception, the override re-raises
after logging unless the `action_result` being serialized is already a
`webob.Response`, in which case the exception is absorbed. -/
def Resource.serialize_response {ρ ε : Type} (superResult : Except ε ρ)
    (actionResultIsWebobResponse : Bool) : SerializeOutcome ρ ε :=
  match superResult with
  | .ok r => .ok r
  | .error e => if actionResultIsWebobResponse then .swallowed else .raised e

/-- The `ReddwarfContext` built by `ContextMiddleware.process_request`. -/
structure ReddwarfContext where
  auth_tok : String
  tenant : Option String
  user : Option String
  is_admin : Bool
  limit : Option String
  marker : Option String
deriving DecidableEq, Repr

/-- `ContextMiddleware._extract_limits`: keep only the `limit` and `marker`
query parameters. -/
def ContextMiddleware.extract_limits (params : List (String × String)) :
    List (String × String) :=
  params.filter (fun p => p.1 = "limit" ∨ p.1 = "marker")

/-- `ContextMiddleware.process_request`: `request.headers["X-Auth-Token"]`
raises `KeyError` when the header is missing (modelled as `.error ()`), so
no context is built; otherwise the context is assembled from the optional
headers, and `is_admin` is set when some element of the comma-split
`X-Role` header, lower-cased, is in the configured `admin_roles` list. -/
def ContextMiddleware.process_request (headers : List (String × String))
    (admin_roles : List String) (params : List (String × String)) :
    Except Unit ReddwarfContext :=
  let tenant_id := dictLookup headers "X-Tenant-Id"
  match dictLookup headers "X-Auth-Token" with
  | none => .error ()
  | some auth_tok =>
    let user := dictLookup headers "X-User"
    let roles := pySplit ',' ((dictLookup headers "X-Role").getD "")
    let is_admin := roles.any (fun role => admin_roles.contains (pyLower role))
    let limits := ContextMiddleware.extract_limits params
    .ok { auth_tok := auth_tok, tenant := tenant_id, user := user,
          is_admin := is_admin, limit := dictLookup limits "limit",
          marker := dictLookup limits "marker" }

/-- The downstream response as seen by `FaultWrapper.__call__`: its status
and its header list. -/
structure WsgiResponse where
  status_int : Nat
  headerlist : List (String × String)
deriving DecidableEq, Repr

/-- `Fault.code_wrapper`: status code to webob exception class. -/
def Fault.code_wrapper : List (Nat × WebobExc) :=
  [ (400, .HTTPBadRequest),
    (401, .HTTPUnauthorized),
    (403, .HTTPUnauthorized),
    (404, .HTTPNotFound) ]

/-- `Fault.resp_codes`: the keys of `code_wrapper`. -/
def Fault.resp_codes : List Nat := Fault.code_wrapper.map Prod.fst

/-- The header test of the rewrite loop in `FaultWrapper.__call__`. -/
def is_plain_text_ct (hv : String × String) : Bool :=
  hv.1 = "Content-Type" && hv.2 = "text/plain; charset=UTF-8"

/-- Result of `FaultWrapper.__call__`: the downstream response passed
through, or a `Fault` of the given webob class. -/
inductive FWResult where
  | passthrough (r : WsgiResponse)
  | fault (w : WebobExc)
deriving DecidableEq, Repr

/-- `FaultWrapper.__call__`: an exception from the downstream chain (the
`.error` case of `downstream`) is logged and turned into a 500 fault; a
response whose status is in `resp_codes` and which carries the generic
plain-text `Content-Type` header is rewritten into a fault of the class
`code_wrapper[status]` (the lookup cannot miss since the status is a key;
the `getD` default is unreachable); every other response passes through. -/
def FaultWrapper.call (downstream : Except Unit WsgiResponse) : FWResult :=
  match downstream with
  | .error _ => .fault .HTTPInternalServerError
  | .ok resp =>
    if resp.status_int ∈ Fault.resp_codes then
      match resp.headerlist.find? is_plain_text_ct with
      | some _ =>
        .fault (((Fault.code_wrapper.find? (fun p => p.1 = resp.status_int)).map
          Prod.snd).getD .HTTPInternalServerError)
      | none => .passthrough resp
    else .passthrough resp

/-- The `_data` payload held by a `Result`: the raw mapping plus the
optional `data_for_xml` / `data_for_json` projections (`some` exactly when
`hasattr` holds, carrying the method's return value). -/
structure Payload (α : Type) where
  raw : α
  data_for_xml : Option α
  data_for_json : Option α
deriving DecidableEq, Repr

/-- `Result.data`: the XML projection when the negotiated type is
`application/xml` and the payload defines one; else the JSON projection when
defined; else the raw mapping. -/
def Result.data {α : Type} (p : Payload α) (serialization_type : String) : α :=
  if serialization_type = "application/xml" ∧ p.data_for_xml.isSome then
    p.data_for_xml.getD p.raw
  else if p.data_for_json.isSome then p.data_for_json.getD p.raw
  else p.raw

/-- The `data` argument of `ReddwarfResponseSerializer.serialize_body`:
either a `Result` instance (payload plus status) or any other value. -/
inductive BodyData (α : Type) where
  | result (p : Payload α) (status : Nat)
  | plain (d : α)
deriving DecidableEq, Repr

/-- `ReddwarfResponseSerializer.serialize_body`: when `data` is a `Result`,
its `data` method is called and that dictionary is what is handed to the
base-class body serializer; the function returns the dictionary handed on. -/
def ReddwarfResponseSerializer.serialize_body {α : Type} (data : BodyData α)
    (content_type : String) : α :=
  match data with
  | .result p _ => Result.data p content_type
  | .plain d => d

/-- C2: an error raised by business logic whose exact type is registered in
`Controller.exception_map` produces a fault of exactly the webob status
class configured for it in the declarative table (via the inverted
`model_exception_map`), and a `ReddwarfError` type not registered in the map
produces a fault of `HTTPBadRequest` (HTTP 400). -/
theorem C2_registered_errors_map_to_configured_status :
    (∀ entry ∈ Controller.exception_map, ∀ e ∈ entry.2,
        (Resource.execute_action true (ActionOutcome.raiseReddwarf e) :
          ActionResult Unit) = ActionResult.fault entry.1) ∧
    (∀ s : String,
        (Resource.execute_action true
            (ActionOutcome.raiseReddwarf (RdExc.otherError s)) :
          ActionResult Unit) = ActionResult.fault WebobExc.HTTPBadRequest) := by
  constructor
  · decide
  · intro s
    rfl

/-- Witness for C2 at the `HTTPUnauthorized` row and at a fresh
unregistered error type. -/
theorem C2_registered_errors_map_to_configured_status_witness :
    ((WebobExc.HTTPUnauthorized, [RdExc.Forbidden]) ∈ Controller.exception_map ∧
      RdExc.Forbidden ∈ [RdExc.Forbidden] ∧
      (Resource.execute_action true (ActionOutcome.raiseReddwarf RdExc.Forbidden) :
        ActionResult Unit) = ActionResult.fault WebobExc.HTTPUnauthorized) ∧
    (Resource.execute_action true
        (ActionOutcome.raiseReddwarf (RdExc.otherError "BrandNewError")) :
      ActionResult Unit) = ActionResult.fault WebobExc.HTTPBadRequest := by
  refine ⟨⟨by decide, by decide, ?_⟩, ?_⟩
  · exact C2_registered_errors_map_to_configured_status.1
      (WebobExc.HTTPUnauthorized, [RdExc.Forbidden]) (by decide) RdExc.Forbidden (by decide)
  · exact C2_registered_errors_map_to_configured_status.2 "BrandNewError"

/-- C10: `exception.Forbidden` is mapped by the default controller exception
table to `HTTPUnauthorized`, so the resulting fault carries status code 401
and fault name "unauthorized" — not status 403, and not fault name
"forbidden". -/
theorem C10_forbidden_becomes_unauthorized :
    (Resource.execute_action true (ActionOutcome.raiseReddwarf RdExc.Forbidden) :
      ActionResult Unit) = ActionResult.fault WebobExc.HTTPUnauthorized ∧
    WebobExc.HTTPUnauthorized.status_int = 401 ∧
    Fault.get_error_name WebobExc.HTTPUnauthorized = "unauthorized" ∧
    WebobExc.HTTPUnauthorized.status_int ≠ 403 ∧
    Fault.get_error_name WebobExc.HTTPUnauthorized ≠ "forbidden" := by
  exact ⟨rfl, rfl, by decide, by decide, by decide⟩

/-- C6: a failure inside response serialization on a result that is not
already a webob `Response` is logged and re-raised (never absorbed); only
when the value being serialized is already a response object is the
exception absorbed; a successful serialization is returned unchanged. -/
theorem C6_serialization_failure_reraised {ρ ε : Type} (e : ε) (r : ρ) :
    Resource.serialize_response (Except.error e) false =
      (SerializeOutcome.raised e : SerializeOutcome ρ ε) ∧
    Resource.serialize_response (Except.error e) true =
      (SerializeOutcome.swallowed : SerializeOutcome ρ ε) ∧
    Resource.serialize_response (Except.ok r) false =
      (SerializeOutcome.ok r : SerializeOutcome ρ ε) ∧
    Resource.serialize_response (Except.ok r) true =
      (SerializeOutcome.ok r : SerializeOutcome ρ ε) :=
  ⟨rfl, rfl, rfl, rfl⟩

/-- C9: the dictionary handed to the body serializer is the type-specific
projection when the payload exposes one matching the negotiated type, and
the raw mapping (for both content types) when the payload exposes no
type-specific projection. -/
theorem C9_projection_matches_negotiated_type {α : Type} (p : Payload α)
    (status : Nat) :
    (∀ d, p.data_for_xml = some d →
        ReddwarfResponseSerializer.serialize_body (BodyData.result p status)
          "application/xml" = d) ∧
    (∀ d, p.data_for_json = some d →
        ReddwarfResponseSerializer.serialize_body (BodyData.result p status)
          "application/json" = d) ∧
    (p.data_for_xml = none → p.data_for_json = none →
        ReddwarfResponseSerializer.serialize_body (BodyData.result p status)
          "application/xml" = p.raw ∧
        ReddwarfResponseSerializer.serialize_body (BodyData.result p status)
          "application/json" = p.raw) := by
  refine ⟨?_, ?_, ?_⟩
  · intro d h
    simp [ReddwarfResponseSerializer.serialize_body, Result.data, h]
  · intro d h
    simp [ReddwarfResponseSerializer.serialize_body, Result.data, h]
  · intro hx hj
    simp [ReddwarfResponseSerializer.serialize_body, Result.data, hx, hj]

/-- Witness for C9 on concrete payloads: one exposing both projections, one
exposing neither. -/
theorem C9_projection_matches_negotiated_type_witness :
    ((⟨0, some 1, some 2⟩ : Payload Nat).data_for_xml = some 1 ∧
      ReddwarfResponseSerializer.serialize_body
        (BodyData.result (⟨0, some 1, some 2⟩ : Payload Nat) 200)
        "application/xml" = 1) ∧
    ((⟨0, some 1, some 2⟩ : Payload Nat).data_for_json = some 2 ∧
      ReddwarfResponseSerializer.serialize_body
        (BodyData.result (⟨0, some 1, some 2⟩ : Payload Nat) 200)
        "application/json" = 2) ∧
    (ReddwarfResponseSerializer.serialize_body
        (BodyData.result (⟨5, none, none⟩ : Payload Nat) 200)
        "application/xml" = 5 ∧
      ReddwarfResponseSerializer.serialize_body
        (BodyData.result (⟨5, none, none⟩ : Payload Nat) 200)
        "application/json" = 5) := by
  refine ⟨⟨rfl, ?_⟩, ⟨rfl, ?_⟩, ?_⟩
  · exact (C9_projection_matches_negotiated_type
      (⟨0, some 1, some 2⟩ : Payload Nat) 200).1 1 rfl
  · exact (C9_projection_matches_negotiated_type
      (⟨0, some 1, some 2⟩ : Payload Nat) 200).2.1 2 rfl
  · exact (C9_projection_matches_negotiated_type
      (⟨5, none, none⟩ : Payload Nat) 200).2.2 rfl rfl

/-- C3: a path whose final dot-separated segment is `json` or `xml`
negotiates exactly that media type, whatever the Accept header's best match
would be; with an unrecognized or absent extension the result falls through
to the header best-match over the four candidate types, defaulting to
`application/json` when nothing matches. -/
theorem C3_extension_overrides_accept (path : String) (bm : Option String) :
    (∀ pre, rsplit_dot path = some (pre, "json") →
        Request.best_match_content_type path bm = "application/json") ∧
    (∀ pre, rsplit_dot path = some (pre, "xml") →
        Request.best_match_content_type path bm = "application/xml") ∧
    ((∀ pre fmt, rsplit_dot path = some (pre, fmt) → fmt ≠ "json" ∧ fmt ≠ "xml") →
        (∀ k v, bm = some k → (k, v) ∈ ctypes →
            Request.best_match_content_type path bm = v) ∧
        (bm = none → Request.best_match_content_type path bm = "application/json") ∧
        (∀ k, bm = some k → dictLookup ctypes k = none →
            Request.best_match_content_type path bm = "application/json")) := by
  refine ⟨?_, ?_, ?_⟩
  · intro pre h
    simp [Request.best_match_content_type, h]
  · intro pre h
    simp [Request.best_match_content_type, h]
  · intro hno
    have hM : Request.best_match_content_type path bm =
        match bm with
        | some b => dictGetD ctypes b "application/json"
        | none => "application/json" := by
      unfold Request.best_match_content_type
      rcases hsp : rsplit_dot path with _ | ⟨pre, fmt⟩
      · rfl
      · have hfmt := hno pre fmt hsp
        simp [hfmt.1, hfmt.2]
    refine ⟨?_, ?_, ?_⟩
    · intro k v hk hkv
      subst hk
      rw [hM]
      simp only [ctypes, List.mem_cons, List.not_mem_nil, or_false] at hkv
      rcases hkv with h | h | h | h <;>
        (simp only [Prod.mk.injEq] at h; obtain ⟨rfl, rfl⟩ := h; rfl)
    · intro hk
      subst hk
      rw [hM]
    · intro k hk hlook
      subst hk
      rw [hM]
      simp [dictGetD, hlook]

/-- Witness for C3: the path `/v1/instances.xml` negotiates
`application/xml` although the Accept header best-matches JSON. -/
theorem C3_extension_overrides_accept_witness :
    rsplit_dot "/v1/instances.xml" = some ("/v1/instances", "xml") ∧
    Request.best_match_content_type "/v1/instances.xml" (some "application/json")
      = "application/xml" := by
  refine ⟨by decide, ?_⟩
  exact (C3_extension_overrides_accept "/v1/instances.xml"
    (some "application/json")).2.1 "/v1/instances" (by decide)

/-- C8: a downstream response whose status is one of the codes of
`Fault.code_wrapper` and which carries the generic plain-text Content-Type
header is rewritten into a fault of the class registered for that code; any
other response passes through unchanged; an exception from the downstream
chain becomes a 500 fault. -/
theorem C8_fault_wrapper_rewrites_plain_text_errors (r : WsgiResponse)
    (w : WebobExc) :
    ((r.status_int, w) ∈ Fault.code_wrapper →
        ((∃ hv ∈ r.headerlist, is_plain_text_ct hv = true) →
            FaultWrapper.call (Except.ok r) = FWResult.fault w) ∧
        ((∀ hv ∈ r.headerlist, is_plain_text_ct hv = false) →
            FaultWrapper.call (Except.ok r) = FWResult.passthrough r)) ∧
    (r.status_int ∉ Fault.resp_codes →
        FaultWrapper.call (Except.ok r) = FWResult.passthrough r) ∧
    FaultWrapper.call (Except.error ()) =
      FWResult.fault WebobExc.HTTPInternalServerError := by
  refine ⟨?_, ?_, rfl⟩
  · intro hmem
    have hmem' : (r.status_int = 400 ∧ w = WebobExc.HTTPBadRequest) ∨
        (r.status_int = 401 ∧ w = WebobExc.HTTPUnauthorized) ∨
        (r.status_int = 403 ∧ w = WebobExc.HTTPUnauthorized) ∨
        (r.status_int = 404 ∧ w = WebobExc.HTTPNotFound) := by
      simpa [Fault.code_wrapper, Prod.ext_iff] using hmem
    constructor
    · rintro ⟨hv, hhv, hp⟩
      rcases hfind : r.headerlist.find? is_plain_text_ct with _ | x
      · rw [List.find?_eq_none] at hfind
        exact absurd hp (by simpa using hfind hv hhv)
      · rcases hmem' with ⟨hs, hw⟩ | ⟨hs, hw⟩ | ⟨hs, hw⟩ | ⟨hs, hw⟩ <;>
          subst hw <;>
          simp [FaultWrapper.call, hfind, hs, Fault.resp_codes, Fault.code_wrapper]
    · intro hnone
      have hfind : r.headerlist.find? is_plain_text_ct = none :=
        List.find?_eq_none.mpr (fun x hx => by simp [hnone x hx])
      rcases hmem' with ⟨hs, _⟩ | ⟨hs, _⟩ | ⟨hs, _⟩ | ⟨hs, _⟩ <;>
        simp [FaultWrapper.call, hfind, hs, Fault.resp_codes, Fault.code_wrapper]
  · intro hnot
    simp [FaultWrapper.call, hnot]

/-- Witness for C8: a plain-text 404 is rewritten into an `HTTPNotFound`
fault, and a 200 response passes through. -/
theorem C8_fault_wrapper_rewrites_plain_text_errors_witness :
    (404, WebobExc.HTTPNotFound) ∈ Fault.code_wrapper ∧
    FaultWrapper.call
        (Except.ok ⟨404, [("Content-Type", "text/plain; charset=UTF-8")]⟩) =
      FWResult.fault WebobExc.HTTPNotFound ∧
    200 ∉ Fault.resp_codes ∧
    FaultWrapper.call (Except.ok ⟨200, []⟩) = FWResult.passthrough ⟨200, []⟩ := by
  refine ⟨by decide, ?_, by decide, ?_⟩
  · exact ((C8_fault_wrapper_rewrites_plain_text_errors
        ⟨404, [("Content-Type", "text/plain; charset=UTF-8")]⟩
        WebobExc.HTTPNotFound).1 (by decide)).1
      ⟨("Content-Type", "text/plain; charset=UTF-8"), by decide, by decide⟩
  · exact (C8_fault_wrapper_rewrites_plain_text_errors ⟨200, []⟩
      WebobExc.HTTPNotFound).2.1 (by decide)

/-- C4: when the request path carries no `/v<digits>[.<digits>]` version
segment and the Accept header declares `version=N`, the version router
dispatches to the sub-application registered at `/vN` when one exists and
otherwise returns the 406 "version not supported" fault; a request with a
URL version, or without a header version, is dispatched to the full URL map
unmodified. -/
theorem C4_version_routing {α : Type} (urlmap : List (String × α))
    (req : WsgiRequest) :
    (∀ v, Request.url_version req.path = none →
        Request.accept_version req.accept = some v →
        ((∀ a, dictLookup urlmap ("/v" ++ v) = some a →
            VersionedURLMap.call urlmap req = Dispatch.app a) ∧
         (dictLookup urlmap ("/v" ++ v) = none →
            VersionedURLMap.call urlmap req = Dispatch.versionFault))) ∧
    ((Request.url_version req.path ≠ none ∨
        Request.accept_version req.accept = none) →
      VersionedURLMap.call urlmap req = Dispatch.fullMap) := by
  constructor
  · intro v hu ha
    constructor
    · intro a hl
      simp [VersionedURLMap.call, hu, ha, hl]
    · intro hl
      simp [VersionedURLMap.call, hu, ha, hl]
  · intro h
    unfold VersionedURLMap.call
    rw [if_neg]
    intro hc
    rcases h with h | h
    · exact h hc.1
    · rw [h] at hc
      simpa using hc.2

/-- Witness for C4: a versioned vendor Accept header and an unversioned
path select the registered `/v2` sub-application, fall to the 406 fault
when the version is unregistered, and a versioned path goes to the full
map. -/
theorem C4_version_routing_witness :
    Request.url_version "/instances" = none ∧
    Request.accept_version "application/vnd.openstack.reddwarf+json;version=2"
      = some "2" ∧
    dictLookup [("/v2", 7)] ("/v" ++ "2") = some 7 ∧
    VersionedURLMap.call [("/v2", 7)]
        ⟨"/instances", "application/vnd.openstack.reddwarf+json;version=2"⟩
      = Dispatch.app 7 ∧
    dictLookup ([("/v2", 7)] : List (String × Nat)) ("/v" ++ "1") = none ∧
    VersionedURLMap.call [("/v2", 7)]
        ⟨"/instances", "application/vnd.openstack.reddwarf+json;version=1"⟩
      = Dispatch.versionFault ∧
    Request.url_version "/v1/instances" = some "1" ∧
    VersionedURLMap.call [("/v2", 7)]
        ⟨"/v1/instances", "application/vnd.openstack.reddwarf+json;version=2"⟩
      = Dispatch.fullMap := by
  refine ⟨by decide, by decide, by decide, ?_, by decide, ?_, by decide, ?_⟩
  · exact ((C4_version_routing [("/v2", 7)]
      ⟨"/instances", "application/vnd.openstack.reddwarf+json;version=2"⟩).1
      "2" (by decide) (by decide)).1 7 (by decide)
  · exact ((C4_version_routing [("/v2", 7)]
      ⟨"/instances", "application/vnd.openstack.reddwarf+json;version=1"⟩).1
      "1" (by decide) (by decide)).2 (by decide)
  · exact (C4_version_routing [("/v2", 7)]
      ⟨"/v1/instances", "application/vnd.openstack.reddwarf+json;version=2"⟩).2
      (Or.inl (by decide))

/-- Counterexample to C5 as stated: a wrapped exception whose detail is
present but empty (`HTTPNotFound('')`).  The claim says the message is the
detail text whenever a detail is present, but the code tests Python
truthiness, so the empty-string detail falls back to the generic
explanation text instead. -/
theorem C5_fault_document_shape_counterexample :
    (⟨WebobExc.HTTPNotFound, some "", "The resource could not be found."⟩ :
        WrappedExc).detail.isSome = true ∧
    Fault.fault_data
        ⟨WebobExc.HTTPNotFound, some "", "The resource could not be found."⟩ =
      [("itemNotFound",
        [("code", FaultVal.num 404),
         ("message", FaultVal.str "The resource could not be found.")])] ∧
    ("The resource could not be found." : String) ≠ "" := by
  refine ⟨rfl, by decide, by decide⟩

/-- C5 (amended): every serialized fault document has exactly one top-level
key, and that key's value carries a numeric `code` equal to the wrapped
exception's status and a `message` that is the detail text when the detail
is present and non-empty, and the generic explanation text otherwise. -/
theorem C5_fault_document_shape (exc : WrappedExc) :
    (Fault.fault_data exc).length = 1 ∧
    (∀ name inner, Fault.fault_data exc = [(name, inner)] →
        name = Fault.get_error_name exc.cls ∧
        dictLookup inner "code" = some (FaultVal.num exc.cls.status_int) ∧
        dictLookup inner "message" = some (FaultVal.str
          (match exc.detail with
           | some d => if d = "" then exc.explanation else d
           | none => exc.explanation))) := by
  refine ⟨rfl, ?_⟩
  intro name inner h
  rw [Fault.fault_data] at h
  injection h with h1 _
  injection h1 with hn hi
  subst hn
  subst hi
  refine ⟨rfl, by simp [dictLookup], ?_⟩
  rcases hd : exc.detail with _ | d
  · simp [dictLookup, pyTruthy, hd]
  · by_cases hde : d = ""
    · subst hde
      simp [dictLookup, pyTruthy, hd]
    · simp [dictLookup, pyTruthy, hd, hde]

/-- Witness for C5 at a concrete wrapped exception with a non-empty
detail. -/
theorem C5_fault_document_shape_witness :
    (Fault.fault_data
        ⟨WebobExc.HTTPNotFound, some "no instance 42", "The resource could not be found."⟩).length = 1 ∧
    Fault.fault_data
        ⟨WebobExc.HTTPNotFound, some "no instance 42", "The resource could not be found."⟩ =
      [("itemNotFound",
        [("code", FaultVal.num 404), ("message", FaultVal.str "no instance 42")])] ∧
    dictLookup [("code", FaultVal.num 404), ("message", FaultVal.str "no instance 42")]
      "code" = some (FaultVal.num 404) ∧
    dictLookup [("code", FaultVal.num 404), ("message", FaultVal.str "no instance 42")]
      "message" = some (FaultVal.str "no instance 42") := by
  have h := (C5_fault_document_shape
      ⟨WebobExc.HTTPNotFound, some "no instance 42", "The resource could not be found."⟩).2
    "itemNotFound"
    [("code", FaultVal.num 404), ("message", FaultVal.str "no instance 42")]
    (by decide)
  exact ⟨(C5_fault_document_shape _).1, by decide, by simpa using h.2.1, by simpa using h.2.2⟩

/-- Counterexample to C7 as stated: the configured admin-role list holds
`"Admin"` (not lower-case) and the request sends `X-Role: Admin`.  The role
matches the configured entry case-insensitively (identical strings), yet
the admin flag is false: the code lower-cases only the request-side role
and then compares it verbatim against the configured list. -/
theorem C7_context_extraction_counterexample :
    "Admin" ∈ pySplit ',' "Admin" ∧
    "Admin" ∈ (["Admin"] : List String) ∧
    pyLower "Admin" = pyLower "Admin" ∧
    (ContextMiddleware.process_request
        [("X-Auth-Token", "t"), ("X-Role", "Admin")] ["Admin"] []).map
      ReddwarfContext.is_admin = Except.ok false := by
  exact ⟨by decide, by decide, rfl, rfl⟩

/-- C7 (amended): a request without `X-Auth-Token` is rejected before any
context is built; with the token present, the context's admin flag is true
exactly when some element of the comma-split `X-Role` header, lower-cased,
is literally an element of the configured admin-role list (the comparison
is case-insensitive on the request side only). -/
theorem C7_context_extraction (headers : List (String × String))
    (admin_roles : List String) (params : List (String × String)) :
    (dictLookup headers "X-Auth-Token" = none →
        ContextMiddleware.process_request headers admin_roles params =
          Except.error ()) ∧
    (∀ tok, dictLookup headers "X-Auth-Token" = some tok →
        ((∃ role ∈ pySplit ',' ((dictLookup headers "X-Role").getD ""),
              pyLower role ∈ admin_roles) →
            (ContextMiddleware.process_request headers admin_roles params).map
              ReddwarfContext.is_admin = Except.ok true) ∧
        ((¬ ∃ role ∈ pySplit ',' ((dictLookup headers "X-Role").getD ""),
              pyLower role ∈ admin_roles) →
            (ContextMiddleware.process_request headers admin_roles params).map
              ReddwarfContext.is_admin = Except.ok false)) := by
  constructor
  · intro h
    simp [ContextMiddleware.process_request, h]
  · intro tok h
    constructor
    · intro hex
      have hany : (pySplit ',' ((dictLookup headers "X-Role").getD "")).any
          (fun role => admin_roles.contains (pyLower role)) = true := by
        rcases hex with ⟨role, hmem, hrole⟩
        exact List.any_eq_true.mpr ⟨role, hmem, by simpa using hrole⟩
      simp [ContextMiddleware.process_request, h, Except.map]
      simpa using hany
    · intro hnex
      have hany : (pySplit ',' ((dictLookup headers "X-Role").getD "")).any
          (fun role => admin_roles.contains (pyLower role)) = false := by
        rw [List.any_eq_false]
        intro role hmem hc
        exact hnex ⟨role, hmem, by simpa using hc⟩
      simp [ContextMiddleware.process_request, h, Except.map]
      simpa using hany

/-- Witness for C7: a missing token is a hard failure; `X-Role: ADMIN`
against the (lower-case) configured role `admin` sets the admin flag. -/
theorem C7_context_extraction_witness :
    dictLookup ([("X-Role", "x")] : List (String × String)) "X-Auth-Token" =
      none ∧
    ContextMiddleware.process_request [("X-Role", "x")] ["admin"] [] =
      Except.error () ∧
    dictLookup [("X-Auth-Token", "t"), ("X-Role", "ADMIN")] "X-Auth-Token" =
      some "t" ∧
    (ContextMiddleware.process_request
        [("X-Auth-Token", "t"), ("X-Role", "ADMIN")] ["admin"] []).map
      ReddwarfContext.is_admin = Except.ok true := by
  refine ⟨by decide, ?_, by decide, ?_⟩
  · exact (C7_context_extraction [("X-Role", "x")] ["admin"] []).1 (by decide)
  · exact ((C7_context_extraction [("X-Auth-Token", "t"), ("X-Role", "ADMIN")]
      ["admin"] []).2 "t" (by decide)).1 ⟨"ADMIN", by decide, by decide⟩

/-- Once `root_key` is set, the scan of the remaining entries succeeds only
when every remaining key is `links`. -/
theorem xml_scan_keys_some {α : Type} (l : List (String × α)) (r : String)
    (hl : Bool) :
    xml_scan_keys l (some r) hl =
      match l.filter (fun p => p.1 ≠ "links") with
      | [] => Except.ok (some r, hl || l.any (fun p => p.1 = "links"))
      | _ => Except.error multipleRootMsg := by
  induction l generalizing hl with
  | nil => simp [xml_scan_keys]
  | cons kv rest ih =>
    obtain ⟨k, v⟩ := kv
    by_cases hk : k = "links"
    · subst hk
      simp only [xml_scan_keys, if_pos rfl]
      rw [ih]
      rcases hfr : rest.filter (fun p => p.1 ≠ "links") with _ | ⟨a, tail⟩
      · simp [List.filter_cons, hfr]
      · simp [List.filter_cons, hfr]
    · simp [xml_scan_keys, List.filter_cons, hk]

/-- The scan from the initial state classifies the dict by its non-`links`
keys: zero of them leaves `root_key` unset, one sets it, two stop the scan
with the multiple-root-keys error. -/
theorem xml_scan_keys_none {α : Type} (l : List (String × α)) (hl : Bool) :
    xml_scan_keys l none hl =
      match l.filter (fun p => p.1 ≠ "links") with
      | [] => Except.ok (none, hl || l.any (fun p => p.1 = "links"))
      | [(k, _)] => Except.ok (some k, hl || l.any (fun p => p.1 = "links"))
      | _ => Except.error multipleRootMsg := by
  induction l generalizing hl with
  | nil => simp [xml_scan_keys]
  | cons kv rest ih =>
    obtain ⟨k, v⟩ := kv
    by_cases hk : k = "links"
    · subst hk
      simp only [xml_scan_keys, if_pos rfl]
      rw [ih]
      rcases hfr : rest.filter (fun p => p.1 ≠ "links") with _ | ⟨a, tail⟩
      · simp [List.filter_cons, hfr]
      · obtain ⟨ka, va⟩ := a
        rcases tail with _ | ⟨b, tail2⟩ <;> simp [List.filter_cons, hfr]
    · simp only [xml_scan_keys, if_neg hk]
      rw [xml_scan_keys_some]
      rcases hfr : rest.filter (fun p => p.1 ≠ "links") with _ | ⟨a, tail⟩
      · simp only [ne_eq, decide_not] at hfr
        simp [List.filter_cons, hk, hfr]
      · obtain ⟨ka, va⟩ := a
        simp only [ne_eq, decide_not] at hfr
        simp [List.filter_cons, hk, hfr]

/-- C1: XML default serialization raises a construction error when the
mapping has zero non-`links` keys or at least two of them; with exactly one
non-`links` key the document is rooted at that key, and the `links`
payload is appended under the root exactly when a `links` key is present. -/
theorem C1_xml_root_key_policy {α : Type} (data : List (String × α)) :
    (data.filter (fun p => p.1 ≠ "links") = [] →
        ReddwarfXMLDictSerializer.default data = Except.error missingRootMsg) ∧
    (2 ≤ (data.filter (fun p => p.1 ≠ "links")).length →
        ReddwarfXMLDictSerializer.default data = Except.error multipleRootMsg) ∧
    (∀ k v, data.filter (fun p => p.1 ≠ "links") = [(k, v)] →
        ReddwarfXMLDictSerializer.default data =
          Except.ok (k, dictLookup data k,
            if data.any (fun p => p.1 = "links") then dictLookup data "links"
            else none)) := by
  refine ⟨?_, ?_, ?_⟩
  · intro h
    unfold ReddwarfXMLDictSerializer.default
    rw [xml_scan_keys_none, h]
  · intro h
    unfold ReddwarfXMLDictSerializer.default
    rw [xml_scan_keys_none]
    rcases hf : data.filter (fun p => p.1 ≠ "links") with _ | ⟨a, tail⟩
    · rw [hf] at h
      simp at h
    · obtain ⟨ka, va⟩ := a
      rcases tail with _ | ⟨b, tail2⟩
      · rw [hf] at h
        simp at h
      · obtain ⟨kb, vb⟩ := b
        rw [hf]
  · intro k v h
    unfold ReddwarfXMLDictSerializer.default
    rw [xml_scan_keys_none, h]
    rw [Bool.false_or]

/-- Witness for C1: a `links`-only dict and a two-root dict error out; a
dict with one root key and a `links` key builds the rooted document with
the links payload attached. -/
theorem C1_xml_root_key_policy_witness :
    (([("links", 2)] : List (String × Nat)).filter (fun p => p.1 ≠ "links")
        = [] ∧
      ReddwarfXMLDictSerializer.default ([("links", 2)] : List (String × Nat))
        = Except.error missingRootMsg) ∧
    (2 ≤ (([("a", 1), ("b", 2)] : List (String × Nat)).filter
        (fun p => p.1 ≠ "links")).length ∧
      ReddwarfXMLDictSerializer.default ([("a", 1), ("b", 2)] : List (String × Nat))
        = Except.error multipleRootMsg) ∧
    (([("instance", 1), ("links", 2)] : List (String × Nat)).filter
        (fun p => p.1 ≠ "links") = [("instance", 1)] ∧
      ReddwarfXMLDictSerializer.default
          ([("instance", 1), ("links", 2)] : List (String × Nat))
        = Except.ok ("instance", some 1, some 2)) := by
  refine ⟨⟨by decide, ?_⟩, ⟨by decide, ?_⟩, ⟨by decide, ?_⟩⟩
  · exact (C1_xml_root_key_policy ([("links", 2)] : List (String × Nat))).1
      (by decide)
  · exact (C1_xml_root_key_policy ([("a", 1), ("b", 2)] : List (String × Nat))).2.1
      (by decide)
  · have h := (C1_xml_root_key_policy
      ([("instance", 1), ("links", 2)] : List (String × Nat))).2.2 "instance" 1
      (by decide)
    rw [h]
    rfl

end ReddwarfWsgi
